import Mathlib

/-!
Shallow embedding of the RaceCraft Live analysis layer
(frontend/lib/sample-data.ts, frontend/lib/api-client.ts,
frontend/hooks/use-race-data.ts, app/dashboard/page.tsx,
frontend/components/ui/lazy-load.tsx).

JavaScript numbers are modelled as rationals (ℚ) and integers (ℤ/ℕ).
Calls to Math.random() are modelled by an explicit stream `rnd : ℕ → ℚ`
of successive draws, consumed in source evaluation order; a stream is
valid when every draw lies in [0, 1), as Math.random guarantees.
-/

namespace RaceCraft

/-- A stream of Math.random draws is valid when every draw is in [0, 1). -/
def ValidRnd (rnd : ℕ → ℚ) : Prop := ∀ n, 0 ≤ rnd n ∧ rnd n < 1

/-- The `trend` field of a pace forecast response. -/
inductive Trend
  | improving
  | stable
  | degrading
deriving DecidableEq

/-- One entry of `predictions` (interface LapPrediction in types/api.ts). -/
structure LapPrediction where
  lap_number : ℤ
  predicted_time : ℚ
  delta : ℚ
  confidence : ℚ
deriving DecidableEq

/-- Interface PaceForecastResponse in types/api.ts. -/
structure PaceForecastResponse where
  car_id : String
  predictions : List LapPrediction
  current_pace : ℚ
  trend : Trend
deriving DecidableEq

/-- getSamplePaceForecast from sample-data.ts.  Draw order: baseLapTime uses
draw 0, the trend coin uses draw 1, and the noise of prediction `i` uses
draw `2 + i`. -/
def getSamplePaceForecast (carId : String) (currentLap : ℤ) (rnd : ℕ → ℚ) :
    PaceForecastResponse :=
  let baseLapTime : ℚ := 92.5 + rnd 0 * 2
  let trend : Trend := if rnd 1 > 0.5 then Trend.degrading else Trend.stable
  let predictions : List LapPrediction := (List.range 5).map (fun (i : ℕ) =>
    let degradation : ℚ := if trend = Trend.degrading then (i : ℚ) * 0.15
      else (i : ℚ) * 0.05
    let noise : ℚ := (rnd (2 + i) - 0.5) * 0.2
    { lap_number := currentLap + (i : ℤ) + 1
      predicted_time := baseLapTime + degradation + noise
      delta := degradation + noise
      confidence := max 0.6 (0.9 - (i : ℚ) * 0.06) })
  { car_id := carId
    predictions := predictions
    current_pace := baseLapTime
    trend := trend }

/-- Interface CurrentPaceResponse in types/api.ts. -/
structure CurrentPaceResponse where
  car_id : String
  current_lap_time : ℚ
  sector_times : List ℚ
  best_lap : ℚ
  average_lap : ℚ
deriving DecidableEq

/-- getSampleCurrentPace from sample-data.ts.  Draw order: bestLap uses
draw 0, currentLap uses draw 1. -/
def getSampleCurrentPace (carId : String) (rnd : ℕ → ℚ) : CurrentPaceResponse :=
  let bestLap : ℚ := 91.8 + rnd 0 * 1.5
  let currentLap : ℚ := bestLap + rnd 1 * 1.2
  { car_id := carId
    current_lap_time := currentLap
    sector_times := [28.5, 32.8, 30.9]
    best_lap := bestLap
    average_lap := bestLap + 0.8 }

/-- Interface PaceForecastRequest in types/api.ts (laps_ahead as sent by
usePaceForecast, default 5). -/
structure PaceForecastRequest where
  car_id : String
  session_id : String
  current_lap : ℤ
  laps_ahead : ℕ
deriving DecidableEq

/-- ApiClient.getPaceForecast in sample-data mode: it forwards only
`car_id` and `current_lap` to getSamplePaceForecast; `laps_ahead` is
not consulted. -/
def getPaceForecast (request : PaceForecastRequest) (rnd : ℕ → ℚ) :
    PaceForecastResponse :=
  getSamplePaceForecast request.car_id request.current_lap rnd

/-- The `stint_health` field of a degradation response. -/
inductive StintHealth
  | fresh
  | optimal
  | degrading
  | critical
deriving DecidableEq

/-- The `cause_type` field of a degradation cause. -/
inductive CauseType
  | lateral_grip_loss
  | brake_fade
  | throttle_inconsistency
  | understeer
deriving DecidableEq

/-- Interface DegradationPoint in types/api.ts. -/
structure DegradationPoint where
  lap : ℤ
  delta_seconds : ℚ
  severity : ℚ
deriving DecidableEq

/-- Interface DegradationCause in types/api.ts. -/
structure DegradationCause where
  cause_type : CauseType
  confidence : ℚ
  indicators : List String
deriving DecidableEq

/-- Interface DegradationResponse in types/api.ts. -/
structure DegradationResponse where
  car_id : String
  degradation_curve : List DegradationPoint
  degradation_rate : ℚ
  primary_causes : List DegradationCause
  stint_health : StintHealth
  recommended_action : String
deriving DecidableEq

/-- getSampleDegradation from sample-data.ts (no randomness is consumed).
`currentLap % 15 || 1` falls back to 1 when the remainder is 0. -/
def getSampleDegradation (carId : String) (currentLap : ℕ) :
    DegradationResponse :=
  let stintLength : ℕ := if currentLap % 15 = 0 then 1 else currentLap % 15
  let degradationLevel : ℚ := min ((stintLength : ℚ) / 15) 1
  let curveLen : ℕ := min 10 stintLength
  let degradationCurve : List DegradationPoint :=
    (List.range curveLen).map (fun (i : ℕ) =>
      { lap := (currentLap : ℤ) - (curveLen : ℤ) + (i : ℤ) + 1
        delta_seconds := ((i : ℚ) / 10) * 2.5 * degradationLevel
        severity := min ((i : ℚ) / 15) 1 })
  let causes : List DegradationCause :=
    (if degradationLevel > 0.5 then
      [{ cause_type := CauseType.lateral_grip_loss, confidence := 0.75,
         indicators := ["Reduced lateral G in corners", "Understeering detected"] }]
     else [])
    ++ (if degradationLevel > 0.7 then
      [{ cause_type := CauseType.understeer, confidence := 0.68,
         indicators := ["Increased steering angle", "Compensation for grip loss"] }]
     else [])
  let stintHealth : StintHealth :=
    if degradationLevel < 0.3 then StintHealth.optimal
    else if degradationLevel < 0.6 then StintHealth.degrading
    else StintHealth.critical
  { car_id := carId
    degradation_curve := degradationCurve
    degradation_rate := degradationLevel * 0.15
    primary_causes := causes
    stint_health := stintHealth
    recommended_action :=
      if stintHealth = StintHealth.critical then
        "Consider pit window in next 2-3 laps"
      else "Monitor closely" }

/-- The `traffic_risk` field of a pit window recommendation. -/
inductive TrafficRisk
  | low
  | medium
  | high
deriving DecidableEq

/-- Interface PitWindowRecommendation in types/api.ts. -/
structure PitWindowRecommendation where
  start_lap : ℤ
  end_lap : ℤ
  confidence : ℚ
  expected_position_loss : ℤ
  undercut_opportunity : ℚ
  traffic_risk : TrafficRisk
deriving DecidableEq

/-- Interface PitWindowResponse in types/api.ts. -/
structure PitWindowResponse where
  car_id : String
  recommended_windows : List PitWindowRecommendation
  optimal_lap : ℤ
  reason : String
deriving DecidableEq

/-- getSamplePitWindow from sample-data.ts.  Draw order: the optimal-lap
jitter uses draw 0, expected_position_loss draw 1, undercut_opportunity
draw 2, traffic_risk draws 3 and (conditionally) 4; no later code
consumes randomness, so fixed indices are observationally faithful. -/
def getSamplePitWindow (carId : String) (currentLap totalLaps : ℤ)
    (rnd : ℕ → ℚ) : PitWindowResponse :=
  let optimalLap : ℤ := ⌊(totalLaps : ℚ) * 0.5⌋ + ⌊rnd 0 * 3⌋
  let windowStart : ℤ := max (currentLap + 2) (optimalLap - 2)
  let windowEnd : ℤ := min (totalLaps - 3) (optimalLap + 2)
  { car_id := carId
    recommended_windows :=
      [{ start_lap := windowStart
         end_lap := windowEnd
         confidence := 0.85
         expected_position_loss := ⌊rnd 1 * 2⌋ + 1
         undercut_opportunity := rnd 2 * 1.5
         traffic_risk :=
           if rnd 3 > 0.7 then TrafficRisk.high
           else if rnd 4 > 0.4 then TrafficRisk.medium
           else TrafficRisk.low }]
    optimal_lap := optimalLap
    reason :=
      if (currentLap : ℚ) < (totalLaps : ℚ) * 0.4 then
        "Early pit strategy to undercut rivals with fresh tires"
      else if (currentLap : ℚ) > (totalLaps : ℚ) * 0.6 then
        "Late pit for tire advantage in final stint"
      else "Standard pit window based on degradation analysis" }

/-- Interface SectorAdvantage in types/api.ts. -/
structure SectorAdvantage where
  sector : ℤ
  time_delta : ℚ
  corner : String
deriving DecidableEq

/-- Interface ThreatAnalysis in types/api.ts. -/
structure ThreatAnalysis where
  rival_car_id : String
  gap_seconds : ℚ
  closing_rate : ℚ
  attack_probability : ℚ
  laps_until_attack : ℤ
  sector_advantages : List SectorAdvantage
  defensive_recommendation : String
deriving DecidableEq

/-- The `overall_threat_level` field of a threat detection response. -/
inductive ThreatLevel
  | low
  | medium
  | high
  | critical
deriving DecidableEq

/-- Interface ThreatDetectionResponse in types/api.ts. -/
structure ThreatDetectionResponse where
  car_id : String
  threats : List ThreatAnalysis
  overall_threat_level : ThreatLevel
deriving DecidableEq

/-- getSampleThreatDetection from sample-data.ts.  Draw order: hasThreats
uses draw 0; inside the threat literal gap_seconds uses draw 1,
closing_rate draw 2, attack_probability draw 3, laps_until_attack
draw 4; no later code consumes randomness. -/
def getSampleThreatDetection (carId : String) (currentLap : ℤ)
    (rnd : ℕ → ℚ) : ThreatDetectionResponse :=
  let threats : List ThreatAnalysis :=
    if rnd 0 > 0.3 then
      [{ rival_car_id := "GR86-004-78"
         gap_seconds := 1.2 + rnd 1 * 2
         closing_rate := rnd 2 * 0.3
         attack_probability := 0.65 + rnd 3 * 0.25
         laps_until_attack := ⌊rnd 4 * 3⌋ + 2
         sector_advantages :=
           [{ sector := 2, time_delta := -0.15, corner := "Turn 5-7" },
            { sector := 3, time_delta := -0.08, corner := "Turn 10" }]
         defensive_recommendation :=
           "Focus on corner entry Turn 5, rival gaining 0.15s in Sector 2" }]
    else []
  let overallThreatLevel : ThreatLevel :=
    if rnd 0 > 0.3 then
      (if 1.2 + rnd 1 * 2 < 1.5 then ThreatLevel.high
       else if 1.2 + rnd 1 * 2 < 3.0 then ThreatLevel.medium
       else ThreatLevel.low)
    else ThreatLevel.low
  { car_id := carId
    threats := threats
    overall_threat_level := overallThreatLevel }

/-- The dashboard race state (interface RaceState in use-race-data.ts). -/
structure RaceState where
  carId : String
  sessionId : String
  currentLap : ℕ
  currentPosition : ℕ
  totalLaps : ℕ
deriving DecidableEq

/-- The initial useState value of DashboardPage in app/dashboard/page.tsx. -/
def initialRaceState : RaceState :=
  { carId := "GR86-002-000"
    sessionId := "R1"
    currentLap := 12
    currentPosition := 5
    totalLaps := 27 }

/-- handleNextLap of DashboardPage: the state updater passed to
setRaceState, spreading the previous state and capping currentLap at
totalLaps. -/
def handleNextLap (prev : RaceState) : RaceState :=
  { prev with currentLap := min (prev.currentLap + 1) prev.totalLaps }

/-- startIndex computed by VirtualizedList in lazy-load.tsx. -/
def vlStartIndex (scrollTop itemHeight : ℚ) (overscan : ℕ) : ℤ :=
  max 0 (⌊scrollTop / itemHeight⌋ - overscan)

/-- endIndex computed by VirtualizedList in lazy-load.tsx. -/
def vlEndIndex (itemCount : ℕ) (scrollTop itemHeight containerHeight : ℚ)
    (overscan : ℕ) : ℤ :=
  min (itemCount : ℤ) (⌈(scrollTop + containerHeight) / itemHeight⌉ + overscan)

/-- items.slice(startIndex, endIndex) of VirtualizedList: both bounds are
already non-negative here and slice clamps to the list length and yields
[] when end ≤ start, which drop/take reproduce. -/
def vlVisibleItems {α : Type} (items : List α)
    (scrollTop itemHeight containerHeight : ℚ) (overscan : ℕ) : List α :=
  let s := vlStartIndex scrollTop itemHeight overscan
  let e := vlEndIndex items.length scrollTop itemHeight containerHeight overscan
  (items.drop s.toNat).take (e - s).toNat

/-- The (item, index) arguments VirtualizedList passes to renderItem:
visibleItems.map((item, index) => renderItem(item, startIndex + index)). -/
def vlRenderedPairs {α : Type} (items : List α)
    (scrollTop itemHeight containerHeight : ℚ) (overscan : ℕ) :
    List (α × ℕ) :=
  (vlVisibleItems items scrollTop itemHeight containerHeight overscan).enum.map
    (fun p => (p.2, (vlStartIndex scrollTop itemHeight overscan).toNat + p.1))

end RaceCraft

namespace RaceCraft

/-- Chain' over a map of List.range, from the pointwise successor relation. -/
theorem chain'_map_range {α : Type} (R : α → α → Prop) (g : ℕ → α) (n : ℕ)
    (h : ∀ i, i + 1 < n → R (g i) (g (i + 1))) :
    List.Chain' R ((List.range n).map g) := by
  cases n with
  | zero => simp
  | succ m =>
    rw [List.chain'_map, List.chain'_range_succ]
    intro i hi
    exact h i (by omega)

/-- C1: in every pace forecast produced by getSamplePaceForecast (hence by
getPaceForecast in sample mode), the confidence values of adjacent
predictions are monotonically non-increasing in horizon. -/
theorem pace_forecast_confidence_antitone (carId : String) (currentLap : ℤ)
    (rnd : ℕ → ℚ) :
    List.Chain' (fun a b => b.confidence ≤ a.confidence)
      (getSamplePaceForecast carId currentLap rnd).predictions := by
  simp only [getSamplePaceForecast, List.range_succ, List.range_zero,
    List.map_append, List.map_cons, List.map_nil, List.nil_append,
    List.cons_append, List.chain'_cons, List.chain'_singleton]
  norm_num [max_le_iff, le_max_iff]

/-- C5: the sample-mode pace forecast is total: for every request (any
current_lap, any laps_ahead, hence any amount of lap history) and any
draws it returns a forecast with a non-empty predictions list — there is
no error path. -/
theorem pace_forecast_never_fails (request : PaceForecastRequest)
    (rnd : ℕ → ℚ) :
    (getPaceForecast request rnd).predictions.length = 5 ∧
      (getPaceForecast request rnd).predictions ≠ [] := by
  constructor <;>
    simp [getPaceForecast, getSamplePaceForecast, List.range_succ]

/-- C6 counterexample: a request with laps_ahead = 2 still yields 5
predictions, because sample mode ignores laps_ahead. -/
theorem pace_forecast_horizon_counterexample :
    (getPaceForecast
        { car_id := "GR86-002-000", session_id := "R1", current_lap := 12,
          laps_ahead := 2 } (fun _ => 0)).predictions.length = 5 ∧
      (getPaceForecast
        { car_id := "GR86-002-000", session_id := "R1", current_lap := 12,
          laps_ahead := 2 } (fun _ => 0)).predictions.length ≠ 2 := by
  constructor <;>
    simp [getPaceForecast, getSamplePaceForecast, List.range_succ]

/-- C6 amended: regardless of the requested laps_ahead, the forecast
always covers exactly the next 5 laps: 5 predictions whose lap_number
values are current_lap+1, ..., current_lap+5 in order. -/
theorem pace_forecast_horizon_fixed_five (request : PaceForecastRequest)
    (rnd : ℕ → ℚ) :
    (getPaceForecast request rnd).predictions.length = 5 ∧
      (getPaceForecast request rnd).predictions.map (fun p => p.lap_number)
        = [request.current_lap + 1, request.current_lap + 2,
           request.current_lap + 3, request.current_lap + 4,
           request.current_lap + 5] := by
  constructor
  · simp [getPaceForecast, getSamplePaceForecast, List.range_succ]
  · simp [getPaceForecast, getSamplePaceForecast, List.range_succ]
    omega

/-- C7 counterexample: the sample queries consume Math.random draws, so
two invocations with identical arguments but different draws return
different results (current_pace 92.5 versus 93.5). -/
theorem pace_forecast_not_reproducible :
    (getSamplePaceForecast "GR86-002-000" 12 (fun _ => 0)).current_pace
        = 92.5 ∧
      (getSamplePaceForecast "GR86-002-000" 12 (fun _ => 1/2)).current_pace
        = 93.5 ∧
      getSamplePaceForecast "GR86-002-000" 12 (fun _ => 0)
        ≠ getSamplePaceForecast "GR86-002-000" 12 (fun _ => 1/2) := by
  refine ⟨by norm_num [getSamplePaceForecast], by norm_num [getSamplePaceForecast], ?_⟩
  intro h
  have h2 := congrArg PaceForecastResponse.current_pace h
  norm_num [getSamplePaceForecast] at h2

/-- C7 amended: the sample queries are deterministic functions of their
arguments together with the random draws: the pace forecast reads only
draws 0..6 and the current pace only draws 0..1, so two invocations that
agree on arguments and on those draws return identical results. -/
theorem sample_queries_deterministic (carId : String) (currentLap : ℤ)
    (r r' : ℕ → ℚ) (h : ∀ n, n < 7 → r n = r' n) :
    getSamplePaceForecast carId currentLap r
        = getSamplePaceForecast carId currentLap r' ∧
      getSampleCurrentPace carId r = getSampleCurrentPace carId r' := by
  have h0 := h 0 (by norm_num)
  have h1 := h 1 (by norm_num)
  have h2 := h 2 (by norm_num)
  have h3 := h 3 (by norm_num)
  have h4 := h 4 (by norm_num)
  have h5 := h 5 (by norm_num)
  have h6 := h 6 (by norm_num)
  constructor <;>
    simp [getSamplePaceForecast, getSampleCurrentPace, List.range_succ,
      h0, h1, h2, h3, h4, h5, h6]

/-- C7 amended, witness: two pointwise-equal draw streams produce
identical pace-forecast and current-pace responses. -/
theorem sample_queries_deterministic_witness :
    getSamplePaceForecast "GR86-002-000" 12 (fun _ => 0)
        = getSamplePaceForecast "GR86-002-000" 12
            (fun n => if n < 100 then 0 else 1) ∧
      getSampleCurrentPace "GR86-002-000" (fun _ => 0)
        = getSampleCurrentPace "GR86-002-000"
            (fun n => if n < 100 then 0 else 1) :=
  sample_queries_deterministic "GR86-002-000" 12 (fun _ => 0)
    (fun n => if n < 100 then 0 else 1)
    (fun n hn => by
      have : n < 100 := lt_trans hn (by norm_num)
      simp [this])

/-- C3 counterexample: at current_lap = 10 the degradation_rate (drift)
is 0.10, inside the claimed "degrading" band [0.05, 0.10], yet
stint_health is critical, because the code buckets by degradationLevel
with thresholds 0.3 and 0.6, not by drift with thresholds 0.05 and 0.10. -/
theorem degradation_bucket_counterexample :
    (getSampleDegradation "GR86-002-000" 10).degradation_rate = 1/10
    ∧ (0.05 : ℚ) ≤ (getSampleDegradation "GR86-002-000" 10).degradation_rate
    ∧ (getSampleDegradation "GR86-002-000" 10).degradation_rate ≤ 0.10
    ∧ (getSampleDegradation "GR86-002-000" 10).stint_health
        = StintHealth.critical
    ∧ (getSampleDegradation "GR86-002-000" 10).stint_health
        ≠ StintHealth.degrading := by
  refine ⟨?_, ?_, ?_, ?_, ?_⟩ <;>
    norm_num [getSampleDegradation, min_def] <;> decide

/-- C3 amended: getSampleDegradation buckets stint_health by
degradationLevel with thresholds 0.3 and 0.6; since degradation_rate
(the reported drift) is degradationLevel * 0.15, stint_health is
"optimal" exactly when drift < 0.045, "degrading" exactly when
0.045 <= drift < 0.09, and "critical" exactly when drift >= 0.09. -/
theorem degradation_bucket_thresholds (carId : String) (currentLap : ℕ) :
    ((getSampleDegradation carId currentLap).stint_health = StintHealth.optimal
      ↔ (getSampleDegradation carId currentLap).degradation_rate < 0.045)
    ∧ ((getSampleDegradation carId currentLap).stint_health
          = StintHealth.degrading
      ↔ 0.045 ≤ (getSampleDegradation carId currentLap).degradation_rate
          ∧ (getSampleDegradation carId currentLap).degradation_rate < 0.09)
    ∧ ((getSampleDegradation carId currentLap).stint_health
          = StintHealth.critical
      ↔ 0.09 ≤ (getSampleDegradation carId currentLap).degradation_rate) := by
  have key : ∀ q : ℚ,
      (((if q < 0.3 then StintHealth.optimal
          else if q < 0.6 then StintHealth.degrading
          else StintHealth.critical) = StintHealth.optimal
        ↔ q * 0.15 < 0.045)
      ∧ ((if q < 0.3 then StintHealth.optimal
          else if q < 0.6 then StintHealth.degrading
          else StintHealth.critical) = StintHealth.degrading
        ↔ 0.045 ≤ q * 0.15 ∧ q * 0.15 < 0.09)
      ∧ ((if q < 0.3 then StintHealth.optimal
          else if q < 0.6 then StintHealth.degrading
          else StintHealth.critical) = StintHealth.critical
        ↔ 0.09 ≤ q * 0.15)) := by
    intro q
    by_cases h1 : q < 0.3
    · refine ⟨?_, ?_, ?_⟩ <;> rw [if_pos h1]
      · exact ⟨fun _ => by linarith, fun _ => rfl⟩
      · exact ⟨fun hfalse => StintHealth.noConfusion hfalse,
          fun hab => absurd hab.1 (not_le.mpr (by linarith))⟩
      · exact ⟨fun hfalse => StintHealth.noConfusion hfalse,
          fun hge => absurd hge (not_le.mpr (by linarith))⟩
    · by_cases h2 : q < 0.6
      · push_neg at h1
        refine ⟨?_, ?_, ?_⟩ <;> rw [if_neg (not_lt.mpr h1), if_pos h2]
        · exact ⟨fun hfalse => StintHealth.noConfusion hfalse,
            fun hlt => absurd hlt (not_lt.mpr (by linarith))⟩
        · exact ⟨fun _ => ⟨by linarith, by linarith⟩, fun _ => rfl⟩
        · exact ⟨fun hfalse => StintHealth.noConfusion hfalse,
            fun hge => absurd hge (not_le.mpr (by linarith))⟩
      · push_neg at h1 h2
        refine ⟨?_, ?_, ?_⟩ <;>
          rw [if_neg (not_lt.mpr h1), if_neg (not_lt.mpr h2)]
        · exact ⟨fun hfalse => StintHealth.noConfusion hfalse,
            fun hlt => absurd hlt (not_lt.mpr (by linarith))⟩
        · exact ⟨fun hfalse => StintHealth.noConfusion hfalse,
            fun hab => absurd hab.2 (not_lt.mpr (by linarith))⟩
        · exact ⟨fun _ => by linarith, fun _ => rfl⟩
  simp only [getSampleDegradation]
  exact key _

/-- C8: for every car and current_lap >= 1, every degradation-curve point
has severity in [0, 1] and delta_seconds >= 0, and the curve's lap
numbers are consecutive increasing integers whose maximum (and last
element) is current_lap. -/
theorem degradation_curve_invariants (carId : String) (currentLap : ℕ)
    (h : 1 ≤ currentLap) :
    (∀ p ∈ (getSampleDegradation carId currentLap).degradation_curve,
        0 ≤ p.severity ∧ p.severity ≤ 1 ∧ 0 ≤ p.delta_seconds)
    ∧ List.Chain' (fun a b => b.lap = a.lap + 1)
        (getSampleDegradation carId currentLap).degradation_curve
    ∧ (∀ p ∈ (getSampleDegradation carId currentLap).degradation_curve,
        p.lap ≤ (currentLap : ℤ))
    ∧ (∃ p ∈ (getSampleDegradation carId currentLap).degradation_curve,
        p.lap = (currentLap : ℤ)) := by
  simp only [getSampleDegradation]
  set st : ℕ := if currentLap % 15 = 0 then 1 else currentLap % 15 with hst
  have hst1 : 1 ≤ st := by
    rw [hst]; split <;> omega
  set L : ℕ := min 10 st with hL
  have hL1 : 1 ≤ L := le_min (by norm_num) hst1
  have hlevel : (0:ℚ) ≤ min ((st:ℚ)/15) 1 := le_min (by positivity) (by norm_num)
  refine ⟨?_, ?_, ?_, ?_⟩
  · intro p hp
    simp only [List.mem_map, List.mem_range] at hp
    obtain ⟨i, hi, rfl⟩ := hp
    refine ⟨le_min (by positivity) (by norm_num), min_le_right _ _, ?_⟩
    exact mul_nonneg (mul_nonneg (by positivity) (by norm_num)) hlevel
  · refine chain'_map_range _ _ _ (fun i hi => ?_)
    push_cast
    ring
  · intro p hp
    simp only [List.mem_map, List.mem_range] at hp
    obtain ⟨i, hi, rfl⟩ := hp
    simp only
    omega
  · refine ⟨_, List.mem_map_of_mem _ (List.mem_range.mpr
      (show L - 1 < L by omega)), ?_⟩
    simp only
    omega

/-- C8 witness: the invariants at carId "GR86-002-000", current_lap 12. -/
theorem degradation_curve_invariants_witness :
    1 ≤ 12
    ∧ ((∀ p ∈ (getSampleDegradation "GR86-002-000" 12).degradation_curve,
          0 ≤ p.severity ∧ p.severity ≤ 1 ∧ 0 ≤ p.delta_seconds)
      ∧ List.Chain' (fun a b => b.lap = a.lap + 1)
          (getSampleDegradation "GR86-002-000" 12).degradation_curve
      ∧ (∀ p ∈ (getSampleDegradation "GR86-002-000" 12).degradation_curve,
          p.lap ≤ ((12 : ℕ) : ℤ))
      ∧ (∃ p ∈ (getSampleDegradation "GR86-002-000" 12).degradation_curve,
          p.lap = ((12 : ℕ) : ℤ))) :=
  ⟨by norm_num, degradation_curve_invariants "GR86-002-000" 12 (by norm_num)⟩

/-- C4 counterexample: for current_lap = 25 of total_laps = 27 (a valid
lap, 1 <= 25 <= 27) the single recommended window has start_lap = 27 and
end_lap = 15, so start_lap <= end_lap fails. -/
theorem pit_window_counterexample :
    (1 : ℤ) ≤ 25 ∧ (25 : ℤ) ≤ 27
    ∧ (getSamplePitWindow "GR86-002-000" 25 27 (fun _ => 0)).recommended_windows.map
        (fun w => (w.start_lap, w.end_lap)) = [((27 : ℤ), (15 : ℤ))] := by
  refine ⟨by norm_num, by norm_num, ?_⟩
  have hfl : (⌊(27 : ℚ) * 0.5⌋ : ℤ) = 13 := by norm_num [Int.floor_eq_iff]
  simp [getSamplePitWindow, hfl]

/-- C4 amended: the recommended window always satisfies
current_lap < start_lap and end_lap <= total_laps; start_lap <= end_lap
additionally holds whenever the race is long enough to pit, namely when
current_lap <= total_laps - 5 and current_lap <= floor(total_laps / 2)
(it can fail late in the race, see the counterexample). -/
theorem pit_window_wellformed (carId : String) (currentLap totalLaps : ℤ)
    (rnd : ℕ → ℚ) (hr : ValidRnd rnd) (hc : 1 ≤ currentLap)
    (h5 : currentLap ≤ totalLaps - 5)
    (hhalf : currentLap ≤ ⌊(totalLaps : ℚ) * 0.5⌋) :
    ∀ w ∈ (getSamplePitWindow carId currentLap totalLaps rnd).recommended_windows,
      currentLap < w.start_lap ∧ w.start_lap ≤ w.end_lap
        ∧ w.end_lap ≤ totalLaps := by
  obtain ⟨h0, h0'⟩ := hr 0
  have hk0 : 0 ≤ ⌊rnd 0 * 3⌋ := Int.floor_nonneg.mpr (by positivity)
  have hk2 : ⌊rnd 0 * 3⌋ ≤ 2 := by
    have h3 : rnd 0 * 3 < ((3 : ℤ) : ℚ) := by push_cast; linarith
    have := Int.floor_lt.mpr h3
    omega
  have hT6 : (6 : ℤ) ≤ totalLaps := by omega
  have hfl : ⌊(totalLaps : ℚ) * 0.5⌋ ≤ totalLaps - 3 := by
    have h1 : ((⌊(totalLaps : ℚ) * 0.5⌋ : ℤ) : ℚ) ≤ (totalLaps : ℚ) * 0.5 :=
      Int.floor_le _
    have h2 : (6 : ℚ) ≤ (totalLaps : ℚ) := by exact_mod_cast hT6
    have h3 : ((⌊(totalLaps : ℚ) * 0.5⌋ : ℤ) : ℚ) ≤ ((totalLaps - 3 : ℤ) : ℚ) := by
      push_cast
      linarith
    exact_mod_cast h3
  intro w hw
  simp only [getSamplePitWindow, List.mem_singleton] at hw
  subst hw
  refine ⟨?_, ?_, ?_⟩
  · simp only
    have := le_max_left (currentLap + 2)
      (⌊(totalLaps : ℚ) * 0.5⌋ + ⌊rnd 0 * 3⌋ - 2)
    omega
  · simp only
    apply max_le
    · apply le_min <;> omega
    · apply le_min <;> omega
  · simp only
    have := min_le_left (totalLaps - 3)
      (⌊(totalLaps : ℚ) * 0.5⌋ + ⌊rnd 0 * 3⌋ + 2)
    omega

/-- C4 amended, witness: at current_lap 5 of 10 total laps with the zero
draw stream, the recommended window is well-formed. -/
theorem pit_window_wellformed_witness :
    ValidRnd (fun _ => 0)
    ∧ (1 : ℤ) ≤ 5 ∧ (5 : ℤ) ≤ 10 - 5 ∧ (5 : ℤ) ≤ ⌊((10 : ℤ) : ℚ) * 0.5⌋
    ∧ ∀ w ∈ (getSamplePitWindow "GR86-002-000" 5 10
          (fun _ => 0)).recommended_windows,
        (5 : ℤ) < w.start_lap ∧ w.start_lap ≤ w.end_lap
          ∧ w.end_lap ≤ (10 : ℤ) := by
  have hfl : (⌊((10 : ℤ) : ℚ) * 0.5⌋ : ℤ) = 5 := by
    rw [show (((10 : ℤ) : ℚ) * 0.5) = ((5 : ℤ) : ℚ) by norm_num, Int.floor_intCast]
  refine ⟨fun n => by norm_num, by norm_num, by norm_num, by omega, ?_⟩
  exact pit_window_wellformed "GR86-002-000" 5 10 (fun _ => 0)
    (fun n => by norm_num) (by norm_num) (by norm_num) (by omega)

/-- C2: in every threat analysis of getSampleThreatDetection with a valid
draw stream, attack_probability lies in [0, 1]; and comparing two runs
whose draws differ only in the closing-rate draw (index 2, increased),
the gap is unchanged, the closing rate does not decrease and the attack
probability does not decrease; comparing two runs whose draws differ only
in the gap draw (index 1, increased), the closing rate is unchanged, the
gap does not decrease and the attack probability does not increase. -/
theorem threat_attack_probability (carId : String) (currentLap : ℤ)
    (r r₂ r₃ : ℕ → ℚ) (hr : ValidRnd r)
    (h20 : r₂ 0 = r 0) (h21 : r₂ 1 = r 1) (h23 : r₂ 3 = r 3)
    (h22 : r 2 ≤ r₂ 2)
    (h30 : r₃ 0 = r 0) (h32 : r₃ 2 = r 2) (h33 : r₃ 3 = r 3)
    (h31 : r 1 ≤ r₃ 1) :
    (∀ t ∈ (getSampleThreatDetection carId currentLap r).threats,
        0 ≤ t.attack_probability ∧ t.attack_probability ≤ 1)
    ∧ (∀ t ∈ (getSampleThreatDetection carId currentLap r).threats,
        ∀ t' ∈ (getSampleThreatDetection carId currentLap r₂).threats,
          t'.gap_seconds = t.gap_seconds
            ∧ t.closing_rate ≤ t'.closing_rate
            ∧ t.attack_probability ≤ t'.attack_probability)
    ∧ (∀ t ∈ (getSampleThreatDetection carId currentLap r).threats,
        ∀ t' ∈ (getSampleThreatDetection carId currentLap r₃).threats,
          t'.closing_rate = t.closing_rate
            ∧ t.gap_seconds ≤ t'.gap_seconds
            ∧ t'.attack_probability ≤ t.attack_probability) := by
  obtain ⟨h3a, h3b⟩ := hr 3
  refine ⟨?_, ?_, ?_⟩
  · intro t ht
    by_cases h0 : r 0 > 0.3
    · simp only [getSampleThreatDetection, if_pos h0,
        List.mem_singleton] at ht
      subst ht
      exact ⟨by simp only; linarith, by simp only; linarith⟩
    · simp only [getSampleThreatDetection, if_neg h0] at ht
      cases ht
  · intro t ht t' ht'
    by_cases h0 : r 0 > 0.3
    · have h0₂ : r₂ 0 > 0.3 := by rw [h20]; exact h0
      simp only [getSampleThreatDetection, if_pos h0, if_pos h0₂,
        List.mem_singleton] at ht ht'
      subst ht
      subst ht'
      refine ⟨by simp only [h21], by simp only; linarith,
        by simp [h23]⟩
    · simp only [getSampleThreatDetection, if_neg h0] at ht
      cases ht
  · intro t ht t' ht'
    by_cases h0 : r 0 > 0.3
    · have h0₃ : r₃ 0 > 0.3 := by rw [h30]; exact h0
      simp only [getSampleThreatDetection, if_pos h0, if_pos h0₃,
        List.mem_singleton] at ht ht'
      subst ht
      subst ht'
      refine ⟨by simp only [h32], by simp only; linarith,
        by simp [h33]⟩
    · simp only [getSampleThreatDetection, if_neg h0] at ht
      cases ht

/-- C2 witness: the attack-probability bounds at concrete valid streams. -/
theorem threat_attack_probability_witness :
    ValidRnd (fun _ => (1 : ℚ)/2)
    ∧ (∀ t ∈ (getSampleThreatDetection "GR86-002-000" 12
          (fun _ => (1 : ℚ)/2)).threats,
        0 ≤ t.attack_probability ∧ t.attack_probability ≤ 1) :=
  ⟨fun n => by norm_num,
   (threat_attack_probability "GR86-002-000" 12 (fun _ => (1 : ℚ)/2)
     (fun _ => (1 : ℚ)/2) (fun _ => (1 : ℚ)/2) (fun n => by norm_num)
     rfl rfl rfl le_rfl rfl rfl rfl le_rfl).1⟩

/-- C9: the Next Lap handler sets currentLap to
min (currentLap + 1) totalLaps, so it increments currentLap by 1 while
below totalLaps, leaves the state unchanged once currentLap equals
totalLaps, preserves every other field, and the invariant
currentLap <= totalLaps holds in every state reachable from the initial
state (currentLap 12, totalLaps 27). -/
theorem nextLap_state_invariant :
    initialRaceState.currentLap ≤ initialRaceState.totalLaps
    ∧ (∀ n : ℕ, (handleNextLap^[n] initialRaceState).currentLap
        ≤ (handleNextLap^[n] initialRaceState).totalLaps)
    ∧ (∀ s : RaceState,
        (handleNextLap s).currentLap = min (s.currentLap + 1) s.totalLaps)
    ∧ (∀ s : RaceState, s.currentLap < s.totalLaps →
        (handleNextLap s).currentLap = s.currentLap + 1)
    ∧ (∀ s : RaceState, s.currentLap = s.totalLaps → handleNextLap s = s)
    ∧ (∀ s : RaceState, (handleNextLap s).carId = s.carId
        ∧ (handleNextLap s).sessionId = s.sessionId
        ∧ (handleNextLap s).currentPosition = s.currentPosition
        ∧ (handleNextLap s).totalLaps = s.totalLaps) := by
  refine ⟨by norm_num [initialRaceState], ?_, fun s => rfl, ?_, ?_,
    fun s => ⟨rfl, rfl, rfl, rfl⟩⟩
  · intro n
    induction n with
    | zero => norm_num [initialRaceState]
    | succ m ih =>
      rw [Function.iterate_succ_apply']
      simp only [handleNextLap]
      exact min_le_right _ _
  · intro s hs
    simp only [handleNextLap]
    omega
  · intro s hs
    have hmin : min (s.currentLap + 1) s.totalLaps = s.currentLap := by omega
    calc handleNextLap s
        = { s with currentLap := min (s.currentLap + 1) s.totalLaps } := rfl
      _ = { s with currentLap := s.currentLap } := by rw [hmin]
      _ = s := rfl

/-- C9 witness: from the initial state, one Next Lap reaches lap 13, and
after 20 presses the invariant still holds. -/
theorem nextLap_state_invariant_witness :
    initialRaceState.currentLap < initialRaceState.totalLaps
    ∧ (handleNextLap initialRaceState).currentLap
        = initialRaceState.currentLap + 1
    ∧ (handleNextLap^[20] initialRaceState).currentLap
        ≤ (handleNextLap^[20] initialRaceState).totalLaps :=
  ⟨by norm_num [initialRaceState],
   nextLap_state_invariant.2.2.2.1 initialRaceState
     (by norm_num [initialRaceState]),
   nextLap_state_invariant.2.1 20⟩

/-- C10 counterexample: with one item, itemHeight 10 > 0,
containerHeight 0 and scrollTop 100 (all within the claim's bounds and
the component's default overscan 3), startIndex is 7 and endIndex is 1,
so startIndex <= endIndex fails. -/
theorem virtualized_list_counterexample :
    (0 : ℚ) < 10 ∧ (0 : ℚ) ≤ 0 ∧ (0 : ℚ) ≤ 100
    ∧ vlStartIndex 100 10 3 = 7
    ∧ vlEndIndex ([(0 : ℕ)].length) 100 10 0 3 = 1
    ∧ vlEndIndex ([(0 : ℕ)].length) 100 10 0 3 < vlStartIndex 100 10 3 := by
  have hfl : (⌊(100 : ℚ) / 10⌋ : ℤ) = 10 := by
    rw [show ((100 : ℚ) / 10) = ((10 : ℤ) : ℚ) by norm_num, Int.floor_intCast]
  have hcl : (⌈((100 : ℚ) + 0) / 10⌉ : ℤ) = 10 := by
    rw [show (((100 : ℚ) + 0) / 10) = ((10 : ℤ) : ℚ) by norm_num,
      Int.ceil_intCast]
  have hstart : vlStartIndex 100 10 3 = 7 := by
    simp only [vlStartIndex, hfl]
    decide
  have hend : vlEndIndex ([(0 : ℕ)].length) 100 10 0 3 = 1 := by
    simp only [vlEndIndex, hcl, List.length_singleton]
    decide
  exact ⟨by norm_num, by norm_num, by norm_num, hstart, hend,
    by rw [hstart, hend]; decide⟩

/-- C10 amended: startIndex is always >= 0 and endIndex <= items.length,
every rendered item is passed its original index
(renderItem receives items[i] together with i), and
startIndex <= endIndex holds whenever scrollTop does not exceed the
content height items.length * itemHeight (it can fail for a scrollTop
beyond the content, see the counterexample). -/
theorem virtualized_list_bounds {α : Type} (items : List α)
    (scrollTop itemHeight containerHeight : ℚ) (overscan : ℕ)
    (hh : 0 < itemHeight) (hs : 0 ≤ scrollTop) (hch : 0 ≤ containerHeight) :
    0 ≤ vlStartIndex scrollTop itemHeight overscan
    ∧ vlEndIndex items.length scrollTop itemHeight containerHeight overscan
        ≤ items.length
    ∧ (scrollTop ≤ (items.length : ℚ) * itemHeight →
        vlStartIndex scrollTop itemHeight overscan
          ≤ vlEndIndex items.length scrollTop itemHeight containerHeight
              overscan)
    ∧ (∀ p ∈ vlRenderedPairs items scrollTop itemHeight containerHeight
          overscan,
        items.get? p.2 = some p.1) := by
  refine ⟨le_max_left _ _, min_le_left _ _, ?_, ?_⟩
  · intro hbound
    have hfloor_le : ⌊scrollTop / itemHeight⌋ ≤ (items.length : ℤ) := by
      have hdiv : scrollTop / itemHeight ≤ ((items.length : ℤ) : ℚ) := by
        rw [div_le_iff₀ hh]
        push_cast
        exact hbound
      calc ⌊scrollTop / itemHeight⌋ ≤ ⌊((items.length : ℤ) : ℚ)⌋ :=
            Int.floor_le_floor hdiv
        _ = (items.length : ℤ) := Int.floor_intCast _
    have hceil : (0 : ℤ) ≤ ⌈(scrollTop + containerHeight) / itemHeight⌉ :=
      Int.ceil_nonneg (by positivity)
    have hfc : ⌊scrollTop / itemHeight⌋
        ≤ ⌈(scrollTop + containerHeight) / itemHeight⌉ := by
      calc ⌊scrollTop / itemHeight⌋
          ≤ ⌊(scrollTop + containerHeight) / itemHeight⌋ :=
            Int.floor_le_floor ((div_le_div_iff_of_pos_right hh).mpr
              (by linarith))
        _ ≤ ⌈(scrollTop + containerHeight) / itemHeight⌉ :=
            Int.floor_le_ceil _
    simp only [vlStartIndex, vlEndIndex]
    apply max_le
    · exact le_min (by positivity) (by omega)
    · exact le_min (by omega) (by omega)
  · intro p hp
    simp only [vlRenderedPairs, List.mem_map] at hp
    obtain ⟨⟨i, a⟩, hmem, rfl⟩ := hp
    have hget : (vlVisibleItems items scrollTop itemHeight containerHeight
        overscan).get? i = some a := by
      have := List.mem_enum_iff_getElem?.mp hmem
      rw [List.get?_eq_getElem?]
      exact this
    simp only [vlVisibleItems] at hget
    rw [List.get?_eq_getElem?, List.getElem?_take] at hget
    by_cases hlt : i < ((vlEndIndex items.length scrollTop itemHeight
        containerHeight overscan) - vlStartIndex scrollTop itemHeight
        overscan).toNat
    · rw [if_pos hlt, List.getElem?_drop] at hget
      rw [List.get?_eq_getElem?]
      exact hget
    · rw [if_neg hlt] at hget
      cases hget

/-- C10 amended, witness: a 3-item list of height 10 in a 25-high
container at scrollTop 0 with overscan 1. -/
theorem virtualized_list_bounds_witness :
    (0 : ℚ) < 10 ∧ (0 : ℚ) ≤ 0 ∧ (0 : ℚ) ≤ 25
    ∧ (0 ≤ vlStartIndex 0 10 1
      ∧ vlEndIndex ([10, 20, 30] : List ℕ).length 0 10 25 1
          ≤ ([10, 20, 30] : List ℕ).length
      ∧ ((0 : ℚ) ≤ (([10, 20, 30] : List ℕ).length : ℚ) * 10 →
          vlStartIndex 0 10 1
            ≤ vlEndIndex ([10, 20, 30] : List ℕ).length 0 10 25 1)
      ∧ (∀ p ∈ vlRenderedPairs ([10, 20, 30] : List ℕ) 0 10 25 1,
          ([10, 20, 30] : List ℕ).get? p.2 = some p.1)) :=
  ⟨by norm_num, by norm_num, by norm_num,
   virtualized_list_bounds ([10, 20, 30] : List ℕ) 0 10 25 1
     (by norm_num) (by norm_num) (by norm_num)⟩

end RaceCraft
